import Mathlib

/-!
Verification development for the link-verification engine in
src/verify_links.py.  The Python source is shallowly embedded: pure string
processing is translated directly; the network call inside check_url is
modelled by an oracle Net mapping the probed URL (and timeout) to the
outcome of urllib.request.urlopen (a successful response, an HTTPError, a
URLError, or any other exception), so check_url becomes a pure total
function of the oracle.
-/

namespace VerifyLinks

/-- Characters allowed inside a URL by the regex in
extract_urls_from_file, line 17: the class excludes Python whitespace
(space, tab, newline, carriage return, vertical tab, form feed), the
closing parenthesis, the double quote, the single quote and the backtick. -/
def excludedChars : List Char :=
  [' ', '\t', '\n', '\r', '\x0b', '\x0c', ')', '\x22', '\x27', '\x60']

def isUrlChar (c : Char) : Bool :=
  !(excludedChars.contains c)

/-- Characters of the scheme "https://". -/
def httpsPrefixChars : List Char := "https://".toList

/-- Characters of the scheme "http://". -/
def httpPrefixChars : List Char := "http://".toList

/-- Fuel-indexed scanner implementing re.findall with the pattern of
line 17: left-to-right, non-overlapping, greedy matches of
http:// or https:// followed by one or more URL characters.  When the
scheme matches but no URL character follows, the regex engine moves on by
one character, as does the scanner. -/
def findUrlsAux : Nat → List Char → List String
  | 0, _ => []
  | _ + 1, [] => []
  | fuel + 1, c :: cs =>
    if (c :: cs).take 8 = httpsPrefixChars then
      let rest := (c :: cs).drop 8
      let body := rest.takeWhile isUrlChar
      if body.isEmpty then findUrlsAux fuel cs
      else ("https://" ++ String.mk body) :: findUrlsAux fuel (rest.dropWhile isUrlChar)
    else if (c :: cs).take 7 = httpPrefixChars then
      let rest := (c :: cs).drop 7
      let body := rest.takeWhile isUrlChar
      if body.isEmpty then findUrlsAux fuel cs
      else ("http://" ++ String.mk body) :: findUrlsAux fuel (rest.dropWhile isUrlChar)
    else findUrlsAux fuel cs

/-- All URL matches in a text blob, in order of occurrence, duplicates
kept (re.findall of line 20).  The fuel s.length is always sufficient:
every recursive call consumes at least one character. -/
def findUrls (s : String) : List String := findUrlsAux s.length s.toList

/-- extract_urls_from_file, lines 15-21, applied to the file's text.
Python returns list(set(urls)); the iteration order of a Python set is
unspecified, and main only uses the result through set-union followed by
sorted(), so List.dedup (which keeps the first occurrence of each
element, realizing the same set) is a faithful model. -/
def extract_urls_from_file (content : String) : List String :=
  (findUrls content).dedup

/-- Template markers of line 29. -/
def templateMarkers : List String :=
  ["\x7b", "\x7d", "$\x7b", "$LOCATION", "PROJECT_ID", "TEAM_ID", "[", "]"]

/-- Example-domain markers of line 33. -/
def exampleMarkers : List String :=
  ["example.com", "example123", "xyzcompany", "your-server.com"]

/-- Containment of the character list m somewhere inside l: m is a
prefix of some suffix of l. -/
def subOf (m : List Char) : List Char → Bool
  | [] => m.isEmpty
  | c :: cs => m.isPrefixOf (c :: cs) || subOf m cs

/-- Python substring containment x in url. -/
def containsSub (url m : String) : Bool :=
  subOf m.toList url.toList

/-- Condition of line 29: url contains any template marker. -/
def isTemplate (url : String) : Bool :=
  templateMarkers.any (fun m => containsSub url m)

/-- Condition of line 33: url contains any example marker. -/
def isExample (url : String) : Bool :=
  exampleMarkers.any (fun m => containsSub url m)

/-- Characters stripped from the end of the URL by line 37:
url.rstrip of the single quote, double quote, period, comma,
semicolon and colon. -/
def stripChars : List Char := ['\x27', '\x22', '.', ',', ';', ':']

/-- Python url.rstrip for the fixed strip set of line 37: remove the
longest trailing run of characters belonging to stripChars. -/
def rstrip (url : String) : String :=
  String.mk ((url.toList.reverse.dropWhile (fun c => stripChars.contains c)).reverse)

/-- Outcome of one call to urllib.request.urlopen as observed by
check_url: a response object (final status code and final URL after
redirects), an HTTPError (status line obtained, non-success code), a
URLError (transport failure before a status line), or any other
exception. -/
inductive NetResult where
  | success (status : Int) (finalUrl : String)
  | httpError (code : Int) (reason : String)
  | urlError (reason : String)
  | otherError (msg : String)
deriving DecidableEq, Repr

/-- Network oracle: behaviour of the network for a given probed URL and
timeout.  A deterministic oracle models an unchanged network reality. -/
def Net : Type := String → Nat → NetResult

/-- Default timeout of check_url (line 23). -/
def defaultTimeout : Nat := 10

/-- The (url, status, detail) triple returned by check_url. -/
structure CheckResult where
  url : String
  status : Int
  detail : String
deriving DecidableEq, Repr

/-- check_url, lines 23-54, as a pure function of the network oracle.
The second component counts the network requests issued by the call
(0 when the URL is exempt, 1 otherwise). -/
def check_url (net : Net) (url : String) (timeout : Nat) : CheckResult × Nat :=
  if isTemplate url then (⟨url, -1, "TEMPLATE_URL"⟩, 0)
  else if isExample url then (⟨url, -1, "EXAMPLE_URL"⟩, 0)
  else
    let u := rstrip url
    match net u timeout with
    | .success status finalUrl =>
      if finalUrl ≠ u then (⟨u, status, finalUrl⟩, 1)
      else (⟨u, status, "OK"⟩, 1)
    | .httpError code reason => (⟨u, code, reason⟩, 1)
    | .urlError reason => (⟨u, -2, reason⟩, 1)
    | .otherError msg => (⟨u, -3, msg⟩, 1)

/-- The three-way pre-flight decision of lines 28-34, as its own
function: template check first, then example check, else probeable. -/
inductive Classification where
  | Template
  | ExampleDomain
  | Probeable
deriving DecidableEq, Repr

/-- Pre-flight classifier: the first two branches of check_url. -/
def classify (url : String) : Classification :=
  if isTemplate url then .Template
  else if isExample url then .ExampleDomain
  else .Probeable

/-- The six result buckets of main, lines 86-93. -/
inductive Bucket where
  | valid
  | redirected
  | broken
  | template
  | example
  | error
deriving DecidableEq, Repr

/-- Bucket selection of main, lines 101-114, from the status and detail
returned by check_url. -/
def bucketOf (status : Int) (result : String) : Bucket :=
  if status = -1 then
    if result = "TEMPLATE_URL" then .template else .example
  else if status = 200 then
    if result ≠ "OK" then .redirected else .valid
  else if status ≥ 400 then .broken
  else .error

/-- The results dictionary of main: one list per bucket, entries in
processing order. -/
structure Results where
  valid : List CheckResult
  redirected : List CheckResult
  broken : List CheckResult
  template : List CheckResult
  exampleB : List CheckResult
  error : List CheckResult
deriving DecidableEq, Repr

/-- The empty results dictionary (lines 86-93). -/
def emptyResults : Results := ⟨[], [], [], [], [], []⟩

/-- Append one check result to the bucket selected by lines 101-114. -/
def addResult (rs : Results) (r : CheckResult) : Results :=
  match bucketOf r.status r.detail with
  | .valid => { rs with valid := rs.valid ++ [r] }
  | .redirected => { rs with redirected := rs.redirected ++ [r] }
  | .broken => { rs with broken := rs.broken ++ [r] }
  | .template => { rs with template := rs.template ++ [r] }
  | .example => { rs with exampleB := rs.exampleB ++ [r] }
  | .error => { rs with error := rs.error ++ [r] }

/-- The check performed for one URL of the working set (line 99). -/
def checkOne (net : Net) (u : String) : CheckResult :=
  (check_url net u defaultTimeout).1

/-- The verification loop of lines 96-116 over a list of URLs. -/
def processUrls (net : Net) (urls : List String) : Results :=
  urls.foldl (fun rs u => addResult rs (checkOne net u)) emptyResults

/-- Lexicographic order on character lists by code point, the order
Python's sorted() uses on strings. -/
def listLe : List Char → List Char → Bool
  | [], _ => true
  | _ :: _, [] => false
  | a :: as, b :: bs =>
    if a.val.toNat < b.val.toNat then true
    else if b.val.toNat < a.val.toNat then false
    else listLe as bs

/-- Python string comparison s1 <= s2 (lexicographic by code point). -/
abbrev strLeR (a b : String) : Prop := listLe a.toList b.toList = true

instance strLeR.decRel : DecidableRel strLeR := fun a b =>
  instDecidableEqBool (listLe a.toList b.toList) true

/-- The working set of main, lines 73-77 and 96: the union of the URLs
extracted from each corpus file, deduplicated as a set, iterated in
sorted order.  A corpus is given by the text contents of its files. -/
def sortedUrls (files : List String) : List String :=
  List.insertionSort strLeR ((files.flatMap extract_urls_from_file).dedup)

/-- The summary block of the report, lines 132-140. -/
structure Summary where
  total_urls : Nat
  valid : Nat
  redirected : Nat
  broken : Nat
  template : Nat
  exampleB : Nat
  error : Nat
deriving DecidableEq, Repr

/-- Summary built from the bucket lists (lines 132-140). -/
def mkSummary (total : Nat) (rs : Results) : Summary :=
  ⟨total, rs.valid.length, rs.redirected.length, rs.broken.length,
    rs.template.length, rs.exampleB.length, rs.error.length⟩

/-- The report written by main, lines 131-142. -/
structure Report where
  summary : Summary
  results : Results
deriving DecidableEq, Repr

/-- One full run of main over a corpus (list of file contents) and a
network oracle: extract, deduplicate, sort, check each URL, bucket, and
build the report. -/
def run (files : List String) (net : Net) : Report :=
  let urls := sortedUrls files
  let rs := processUrls net urls
  ⟨mkSummary urls.length rs, rs⟩

/-- Console preview of the broken bucket, line 153: the first 10
entries. -/
def brokenPreview (r : Report) : List CheckResult := r.results.broken.take 10

/-- Console preview of the redirected bucket, line 160. -/
def redirectedPreview (r : Report) : List CheckResult := r.results.redirected.take 10

/-- Console preview of the error bucket, line 167. -/
def errorPreview (r : Report) : List CheckResult := r.results.error.take 10

/-- All entries of the report, buckets concatenated (their relative
order is not part of the no-loss/no-duplication statement, which is up
to permutation). -/
def Results.entriesList (rs : Results) : List CheckResult :=
  rs.valid ++ (rs.redirected ++ (rs.broken ++ (rs.template ++ (rs.exampleB ++ rs.error))))

/-- Total number of entries across the six buckets. -/
def Results.numEntries (rs : Results) : Nat :=
  rs.valid.length + rs.redirected.length + rs.broken.length
    + rs.template.length + rs.exampleB.length + rs.error.length

/-- The bucket list selected by a bucket tag. -/
def Results.get (rs : Results) : Bucket → List CheckResult
  | .valid => rs.valid
  | .redirected => rs.redirected
  | .broken => rs.broken
  | .template => rs.template
  | .example => rs.exampleB
  | .error => rs.error

/-- The raw URLs of the working set for which check_url issues a network
request (lines 96-99: every URL of the sorted working set is checked
once; exempt ones short-circuit without a request). -/
def rawProbed (net : Net) (files : List String) : List String :=
  (sortedUrls files).filter (fun u => (check_url net u defaultTimeout).2 = 1)

/-- The normalized (stripped) URLs actually passed to urlopen, one entry
per network request issued during the run. -/
def probedUrls (net : Net) (files : List String) : List String :=
  (sortedUrls files).filterMap (fun u =>
    if (check_url net u defaultTimeout).2 = 1 then some (rstrip u) else none)

/-- A concrete oracle for closed instantiations: every probe fails at
the transport level. -/
def downNet : Net := fun _ _ => .urlError ("unreachable")

lemma listLe_total (a b : List Char) : listLe a b = true ∨ listLe b a = true := by
  induction a generalizing b with
  | nil => left; rfl
  | cons x xs ih =>
    cases b with
    | nil => right; rfl
    | cons y ys =>
      rcases Nat.lt_trichotomy x.val.toNat y.val.toNat with h | h | h
      · left; simp [listLe, h]
      · have h1 : ¬ x.val.toNat < y.val.toNat := by omega
        have h2 : ¬ y.val.toNat < x.val.toNat := by omega
        have := ih ys
        rcases this with h3 | h3
        · left; simp [listLe, h1, h2, h3]
        · right; simp [listLe, h1, h2, h3]
      · right; simp [listLe, h]

lemma listLe_le_head {x y : Char} {xs ys : List Char}
    (h : listLe (x :: xs) (y :: ys) = true) : x.val.toNat ≤ y.val.toNat := by
  by_cases h1 : x.val.toNat < y.val.toNat
  · omega
  · by_cases h2 : y.val.toNat < x.val.toNat
    · simp [listLe, h1, h2] at h
    · omega

lemma listLe_trans (a b c : List Char) (hab : listLe a b = true)
    (hbc : listLe b c = true) : listLe a c = true := by
  induction a generalizing b c with
  | nil => rfl
  | cons x xs ih =>
    cases b with
    | nil => simp [listLe] at hab
    | cons y ys =>
      cases c with
      | nil => simp [listLe] at hbc
      | cons z zs =>
        have hxy := listLe_le_head hab
        have hyz := listLe_le_head hbc
        by_cases hxz : x.val.toNat < z.val.toNat
        · simp [listLe, hxz]
        · have hx : ¬ z.val.toNat < x.val.toNat := by omega
          have e1 : ¬ x.val.toNat < y.val.toNat := by omega
          have e2 : ¬ y.val.toNat < x.val.toNat := by omega
          have e3 : ¬ y.val.toNat < z.val.toNat := by omega
          have e4 : ¬ z.val.toNat < y.val.toNat := by omega
          simp only [listLe, e1, e2, if_neg, if_false] at hab
          simp only [listLe, e3, e4, if_neg, if_false] at hbc
          simp only [listLe, hxz, hx, if_neg, if_false]
          · exact ih ys zs (by simpa using hab) (by simpa using hbc)

instance strLeR.isTotal : IsTotal String strLeR :=
  ⟨fun a b => listLe_total a.toList b.toList⟩

instance strLeR.isTrans : IsTrans String strLeR :=
  ⟨fun a b c => listLe_trans a.toList b.toList c.toList⟩

lemma get_addResult (rs : Results) (r : CheckResult) (b : Bucket) :
    (addResult rs r).get b =
      if bucketOf r.status r.detail = b then rs.get b ++ [r] else rs.get b := by
  rcases hb : bucketOf r.status r.detail <;> rcases b <;>
    simp [addResult, Results.get, hb]

lemma numEntries_addResult (rs : Results) (r : CheckResult) :
    (addResult rs r).numEntries = rs.numEntries + 1 := by
  rcases hb : bucketOf r.status r.detail <;>
    simp [addResult, Results.numEntries, hb] <;> omega

lemma perm_lift {r : CheckResult} {X Y : List CheckResult} (L : List CheckResult)
    (h : X.Perm (r :: Y)) : (L ++ X).Perm (r :: (L ++ Y)) :=
  (List.Perm.append_left L h).trans List.perm_middle

lemma entriesList_addResult (rs : Results) (r : CheckResult) :
    (addResult rs r).entriesList.Perm (r :: rs.entriesList) := by
  rcases hb : bucketOf r.status r.detail <;>
    simp only [addResult, hb, Results.entriesList, List.append_assoc, List.singleton_append] <;>
    [exact List.perm_middle;
     exact perm_lift _ List.perm_middle;
     exact perm_lift _ (perm_lift _ List.perm_middle);
     exact perm_lift _ (perm_lift _ (perm_lift _ List.perm_middle));
     exact perm_lift _ (perm_lift _ (perm_lift _ (perm_lift _ List.perm_middle)));
     exact perm_lift _ (perm_lift _ (perm_lift _ (perm_lift _ (perm_lift _
       (List.perm_append_singleton r _)))))]

lemma entriesList_foldl (net : Net) (urls : List String) (rs : Results) :
    ((urls.foldl (fun a u => addResult a (checkOne net u)) rs).entriesList).Perm
      (rs.entriesList ++ urls.map (checkOne net)) := by
  induction urls generalizing rs with
  | nil => simp
  | cons u us ih =>
    simp only [List.foldl_cons, List.map_cons]
    refine (ih _).trans ?_
    refine (List.Perm.append_right _ (entriesList_addResult rs (checkOne net u))).trans ?_
    exact List.perm_middle.symm

lemma numEntries_foldl (net : Net) (urls : List String) (rs : Results) :
    (urls.foldl (fun a u => addResult a (checkOne net u)) rs).numEntries =
      rs.numEntries + urls.length := by
  induction urls generalizing rs with
  | nil => simp
  | cons u us ih =>
    simp only [List.foldl_cons, ih, numEntries_addResult, List.length_cons]
    omega

lemma mem_get_foldl_mono (net : Net) (urls : List String) (rs : Results)
    (r : CheckResult) (b : Bucket) (h : r ∈ rs.get b) :
    r ∈ (urls.foldl (fun a u => addResult a (checkOne net u)) rs).get b := by
  induction urls generalizing rs with
  | nil => exact h
  | cons u us ih =>
    simp only [List.foldl_cons]
    refine ih _ ?_
    rw [get_addResult]
    split
    · exact List.mem_append_left _ h
    · exact h

lemma mem_get_foldl (net : Net) (u : String) :
    ∀ (urls : List String) (rs : Results), u ∈ urls →
      checkOne net u ∈ (urls.foldl (fun a w => addResult a (checkOne net w)) rs).get
        (bucketOf (checkOne net u).status (checkOne net u).detail) := by
  intro urls
  induction urls with
  | nil => intro rs hu; cases hu
  | cons v vs ih =>
    intro rs hu
    simp only [List.foldl_cons]
    rcases List.mem_cons.mp hu with h | h
    · subst h
      refine mem_get_foldl_mono net vs _ _ _ ?_
      rw [get_addResult, if_pos rfl]
      exact List.mem_append_right _ (List.mem_singleton.mpr rfl)
    · exact ih _ h

/-- Every URL of the working set contributes its check result to the
bucket selected for it by lines 101-114. -/
lemma processed_in_bucket (net : Net) (files : List String) (u : String)
    (hu : u ∈ sortedUrls files) :
    checkOne net u ∈ (run files net).results.get
      (bucketOf (checkOne net u).status (checkOne net u).detail) :=
  mem_get_foldl net u (sortedUrls files) emptyResults hu

/-- C1: every URL of the deduplicated working set lands in exactly one
of the six buckets of the final report (the bucket entries are, up to
permutation, exactly one check result per working-set URL), each summary
count equals the length of the corresponding bucket list, and the six
bucket counts sum to the total URL count. -/
theorem bucket_partition (files : List String) (net : Net) :
    ((run files net).summary.valid = (run files net).results.valid.length ∧
     (run files net).summary.redirected = (run files net).results.redirected.length ∧
     (run files net).summary.broken = (run files net).results.broken.length ∧
     (run files net).summary.template = (run files net).results.template.length ∧
     (run files net).summary.exampleB = (run files net).results.exampleB.length ∧
     (run files net).summary.error = (run files net).results.error.length) ∧
    ((run files net).results.entriesList).Perm ((sortedUrls files).map (checkOne net)) ∧
    (run files net).summary.valid + (run files net).summary.redirected +
      (run files net).summary.broken + (run files net).summary.template +
      (run files net).summary.exampleB + (run files net).summary.error =
      (run files net).summary.total_urls := by
  refine ⟨⟨rfl, rfl, rfl, rfl, rfl, rfl⟩, ?_, ?_⟩
  · have h := entriesList_foldl net (sortedUrls files) emptyResults
    simpa [run, processUrls, emptyResults, Results.entriesList] using h
  · have h := numEntries_foldl net (sortedUrls files) emptyResults
    simpa [run, processUrls, emptyResults, Results.numEntries, mkSummary] using h

/-- C4: the pre-flight classification is a pure total function into
the three-valued type Template / ExampleDomain / Probeable, with the
three outcomes characterized exhaustively and exclusively; in
particular a URL matching both a template marker and an example domain
is classified Template (template precedence). -/
theorem classify_total (url : String) :
    (classify url = .Template ↔ isTemplate url = true) ∧
    (classify url = .ExampleDomain ↔ (isTemplate url = false ∧ isExample url = true)) ∧
    (classify url = .Probeable ↔ (isTemplate url = false ∧ isExample url = false)) := by
  cases h1 : isTemplate url <;> cases h2 : isExample url <;>
    simp [classify, h1, h2]

/-- C10: check_url is total: for every oracle, input string and timeout
it returns a (url, status, detail) triple; exempt URLs get status -1,
an HTTP error response carries its own status code and reason, a
URL-level transport error gets status -2 with the error reason, and any
other exception (e.g. a malformed or non-HTTP URL rejected by urlopen)
is caught and reported as status -3 with the exception message. -/
theorem check_url_cases (net : Net) (url : String) (t : Nat) :
    ((isTemplate url = true ∨ isExample url = true) →
      (check_url net url t).1.status = -1) ∧
    (isTemplate url = false → isExample url = false →
      match net (rstrip url) t with
      | .success st f =>
        (check_url net url t).1 =
          if f ≠ rstrip url then ⟨rstrip url, st, f⟩ else ⟨rstrip url, st, "OK"⟩
      | .httpError c reason => (check_url net url t).1 = ⟨rstrip url, c, reason⟩
      | .urlError m => (check_url net url t).1 = ⟨rstrip url, -2, m⟩
      | .otherError m => (check_url net url t).1 = ⟨rstrip url, -3, m⟩) := by
  constructor
  · intro h
    cases h1 : isTemplate url <;> cases h2 : isExample url <;>
      simp [check_url, h1, h2] <;> simp [h1, h2] at h
  · intro h1 h2
    rcases hn : net (rstrip url) t <;> simp [check_url, h1, h2, hn] <;>
      split <;> rfl

/-- Witness for C10 at a malformed input: urlopen rejects the string
"notaurl" with a ValueError, modelled by the otherError oracle, and
check_url reports status -3 with the message. -/
theorem check_url_cases_witness :
    (check_url (fun _ _ => .otherError ("unknown url type: notaurl")) ("notaurl") 10).1 =
      ⟨"notaurl", -3, "unknown url type: notaurl"⟩ := by
  have h := (check_url_cases (fun _ _ => .otherError ("unknown url type: notaurl"))
    ("notaurl") 10).2 (by decide) (by decide)
  simpa using h

/-- C2 counterexample: deduplication happens on raw extracted URLs
(line 21 and line 73), before normalization (line 37).  A corpus
containing the raw URLs https://a.com/x and https://a.com/x. — equal
after stripping the trailing period — issues two probes for the same
normalized URL https://a.com/x. -/
theorem normalized_dedup_counterexample :
    (probedUrls downNet ["x https://a.com/x https://a.com/x. y"]).count ("https://a.com/x") = 2 := by
  decide

/-- C2 amended: the working set is deduplicated on raw extracted URLs,
so the same raw URL is never checked (hence never probed) twice; raw
URLs that differ before normalization are each probed separately even
when they normalize to the same URL. -/
theorem raw_dedup (files : List String) (net : Net) :
    (sortedUrls files).Nodup ∧ (rawProbed net files).Nodup := by
  have h1 : (sortedUrls files).Nodup := by
    have hp := List.perm_insertionSort strLeR ((files.flatMap extract_urls_from_file).dedup)
    exact hp.nodup_iff.mpr (List.nodup_dedup _)
  exact ⟨h1, h1.filter _⟩

/-- C3 counterexample: a probe completing with final status 204 (a 2xx)
and a final URL equal to the requested one is bucketed under error, not
valid: main checks status == 200 (line 106), not any 2xx. -/
theorem two_oh_four_counterexample :
    (run ["https://a.com/x"] (fun _ _ => .success 204 "https://a.com/x")).results.valid = [] ∧
    (run ["https://a.com/x"] (fun _ _ => .success 204 "https://a.com/x")).results.redirected = [] ∧
    (run ["https://a.com/x"] (fun _ _ => .success 204 "https://a.com/x")).results.error =
      [⟨"https://a.com/x", 204, "OK"⟩] := by
  decide

/-- C3 amended: for a probeable URL whose probe completes with final
status exactly 200 (other 2xx statuses land in the error bucket): if
the final URL equals the requested (normalized) URL the record is
bucketed valid, and if it differs (and, being a URL, is not the
sentinel string "OK") it is bucketed redirected. -/
theorem status200_bucketing (files : List String) (net : Net) (url f : String)
    (h1 : isTemplate url = false) (h2 : isExample url = false)
    (hn : net (rstrip url) defaultTimeout = .success 200 f) :
    (f = rstrip url →
      checkOne net url = ⟨rstrip url, 200, "OK"⟩ ∧
      (url ∈ sortedUrls files →
        (⟨rstrip url, 200, "OK"⟩ : CheckResult) ∈ (run files net).results.valid)) ∧
    (f ≠ rstrip url → f ≠ "OK" →
      checkOne net url = ⟨rstrip url, 200, f⟩ ∧
      (url ∈ sortedUrls files →
        (⟨rstrip url, 200, f⟩ : CheckResult) ∈ (run files net).results.redirected)) := by
  constructor
  · intro hf
    have hc : checkOne net url = ⟨rstrip url, 200, "OK"⟩ := by
      simp [checkOne, check_url, h1, h2, hn, hf]
    refine ⟨hc, fun hu => ?_⟩
    have hm := processed_in_bucket net files url hu
    rw [hc] at hm
    have hb : bucketOf (200 : Int) "OK" = Bucket.valid := by decide
    simpa [hb, Results.get] using hm
  · intro hf hOK
    have hc : checkOne net url = ⟨rstrip url, 200, f⟩ := by
      simp [checkOne, check_url, h1, h2, hn, hf]
    refine ⟨hc, fun hu => ?_⟩
    have hm := processed_in_bucket net files url hu
    rw [hc] at hm
    have hb : bucketOf (200 : Int) f = Bucket.redirected := by
      simp [bucketOf, hOK]
    simpa [hb, Results.get] using hm

/-- Witness for the amended C3: over a two-URL corpus, the URL whose
probe ends where it started is bucketed valid and the one whose probe
ends elsewhere is bucketed redirected. -/
theorem status200_bucketing_witness :
    (⟨"https://a.com/x", 200, "OK"⟩ : CheckResult) ∈
      (run ["https://a.com/x https://b.com/r"]
        (fun u _ => if u = "https://a.com/x" then .success 200 "https://a.com/x"
          else .success 200 "https://final.com")).results.valid ∧
    (⟨"https://b.com/r", 200, "https://final.com"⟩ : CheckResult) ∈
      (run ["https://a.com/x https://b.com/r"]
        (fun u _ => if u = "https://a.com/x" then .success 200 "https://a.com/x"
          else .success 200 "https://final.com")).results.redirected := by
  refine ⟨((status200_bucketing _ _ ("https://a.com/x") ("https://a.com/x")
      (by decide) (by decide) (by decide)).1 (by decide)).2 (by decide),
    ((status200_bucketing _ _ ("https://b.com/r") ("https://final.com")
      (by decide) (by decide) (by decide)).2 (by decide) (by decide)).2 (by decide)⟩

/-- C5: an exempt URL (template marker or example domain) causes zero
network requests — its result does not even depend on the network
oracle — and is bucketed under the corresponding exempt bucket of the
report. -/
theorem exempt_no_probe (files : List String) (net net' : Net) (url : String) (t : Nat)
    (h : classify url ≠ .Probeable) :
    (check_url net url t).2 = 0 ∧
    check_url net url t = check_url net' url t ∧
    (classify url = .Template →
      (check_url net url t).1 = ⟨url, -1, "TEMPLATE_URL"⟩ ∧
      (url ∈ sortedUrls files →
        (⟨url, -1, "TEMPLATE_URL"⟩ : CheckResult) ∈ (run files net).results.template)) ∧
    (classify url = .ExampleDomain →
      (check_url net url t).1 = ⟨url, -1, "EXAMPLE_URL"⟩ ∧
      (url ∈ sortedUrls files →
        (⟨url, -1, "EXAMPLE_URL"⟩ : CheckResult) ∈ (run files net).results.exampleB)) := by
  cases h1 : isTemplate url
  · cases h2 : isExample url
    · exact absurd (by simp [classify, h1, h2]) h
    · refine ⟨by simp [check_url, h1, h2], by simp [check_url, h1, h2], ?_, ?_⟩
      · intro hT
        rw [classify, h1] at hT
        simp [h2] at hT
      · intro _
        refine ⟨by simp [check_url, h1, h2], fun hu => ?_⟩
        have hm := processed_in_bucket net files url hu
        have hc : checkOne net url = ⟨url, -1, "EXAMPLE_URL"⟩ := by
          simp [checkOne, check_url, h1, h2]
        rw [hc] at hm
        have hb : bucketOf (-1 : Int) "EXAMPLE_URL" = Bucket.example := by decide
        simpa [hb, Results.get] using hm
  · refine ⟨by simp [check_url, h1], by simp [check_url, h1], ?_, ?_⟩
    · intro _
      refine ⟨by simp [check_url, h1], fun hu => ?_⟩
      have hm := processed_in_bucket net files url hu
      have hc : checkOne net url = ⟨url, -1, "TEMPLATE_URL"⟩ := by
        simp [checkOne, check_url, h1]
      rw [hc] at hm
      have hb : bucketOf (-1 : Int) "TEMPLATE_URL" = Bucket.template := by decide
      simpa [hb, Results.get] using hm
    · intro hE
      rw [classify, h1] at hE
      simp at hE

/-- Witness for C5: the example-domain URL of the spec scenario issues
zero network requests and lands in the example bucket. -/
theorem exempt_no_probe_witness :
    (check_url downNet ("https://example.com/widgets") 10).2 = 0 ∧
    (⟨"https://example.com/widgets", -1, "EXAMPLE_URL"⟩ : CheckResult) ∈
      (run ["https://example.com/widgets"] downNet).results.exampleB := by
  have h := exempt_no_probe ["https://example.com/widgets"] downNet downNet
    ("https://example.com/widgets") 10 (by decide)
  exact ⟨h.1, (h.2.2.2 (by decide)).2 (by decide)⟩

/-- C6: a probeable URL whose probe completes with a 4xx status yields
the (url, code, reason) outcome, is bucketed under broken, and the
console preview lists the first 10 broken entries, so the record is
printed with its status whenever it is among the first 10 (in
particular whenever the broken bucket holds at most 10 entries). -/
theorem client_error_broken_reported (files : List String) (net : Net) (url : String)
    (code : Int) (reason : String)
    (h1 : isTemplate url = false) (h2 : isExample url = false)
    (hu : url ∈ sortedUrls files)
    (hn : net (rstrip url) defaultTimeout = .httpError code reason)
    (h4 : 400 ≤ code) (h5 : code < 500) :
    checkOne net url = ⟨rstrip url, code, reason⟩ ∧
    (⟨rstrip url, code, reason⟩ : CheckResult) ∈ (run files net).results.broken ∧
    brokenPreview (run files net) = (run files net).results.broken.take 10 ∧
    ((run files net).results.broken.length ≤ 10 →
      (⟨rstrip url, code, reason⟩ : CheckResult) ∈ brokenPreview (run files net)) := by
  have hc : checkOne net url = ⟨rstrip url, code, reason⟩ := by
    simp [checkOne, check_url, h1, h2, hn]
  have hm := processed_in_bucket net files url hu
  rw [hc] at hm
  have hb : bucketOf code reason = Bucket.broken := by
    have e1 : ¬ code = -1 := by omega
    have e2 : ¬ code = 200 := by omega
    have e3 : code ≥ 400 := h4
    simp [bucketOf, e1, e2, e3]
  have hmem : (⟨rstrip url, code, reason⟩ : CheckResult) ∈ (run files net).results.broken := by
    simpa [hb, Results.get] using hm
  refine ⟨hc, hmem, rfl, fun hlen => ?_⟩
  rw [brokenPreview, List.take_of_length_le hlen]
  exact hmem

/-- Witness for C6: the spec scenario, a corpus holding
https://httpstat.us/404 probing to 404 Not Found, listed in the broken
preview with status 404. -/
theorem client_error_broken_reported_witness :
    (⟨"https://httpstat.us/404", 404, "Not Found"⟩ : CheckResult) ∈
      brokenPreview (run ["https://httpstat.us/404"]
        (fun _ _ => .httpError 404 "Not Found")) := by
  have h := client_error_broken_reported ["https://httpstat.us/404"]
    (fun _ _ => .httpError 404 "Not Found") ("https://httpstat.us/404") 404 ("Not Found")
    (by decide) (by decide) (by decide) (by decide) (by decide) (by decide)
  exact h.2.2.2 (by decide)

/-- C7: a transport failure before any status line (urllib URLError:
timeout, DNS, connection reset, TLS) is captured as the status -2
outcome value — check_url is a total function, so nothing propagates —
and the record is bucketed under the transport-error bucket; the run
still produces its report. -/
theorem transport_error_captured (files : List String) (net : Net) (url msg : String)
    (h1 : isTemplate url = false) (h2 : isExample url = false)
    (hn : net (rstrip url) defaultTimeout = .urlError msg) :
    check_url net url defaultTimeout = (⟨rstrip url, -2, msg⟩, 1) ∧
    bucketOf (-2) msg = .error ∧
    (url ∈ sortedUrls files →
      (⟨rstrip url, -2, msg⟩ : CheckResult) ∈ (run files net).results.error) := by
  have hc : check_url net url defaultTimeout = (⟨rstrip url, -2, msg⟩, 1) := by
    simp [check_url, h1, h2, hn]
  have hb : bucketOf (-2 : Int) msg = Bucket.error := by
    simp [bucketOf]
  refine ⟨hc, hb, fun hu => ?_⟩
  have hm := processed_in_bucket net files url hu
  have hc1 : checkOne net url = ⟨rstrip url, -2, msg⟩ := by rw [checkOne, hc]
  rw [hc1] at hm
  simpa [hb, Results.get] using hm

/-- Witness for C7: a run over one unreachable URL records the
transport error in the error bucket. -/
theorem transport_error_captured_witness :
    (⟨"https://unreachable.invalid/x", -2, "unreachable"⟩ : CheckResult) ∈
      (run ["https://unreachable.invalid/x"] downNet).results.error := by
  have h := transport_error_captured ["https://unreachable.invalid/x"] downNet
    ("https://unreachable.invalid/x") ("unreachable") (by decide) (by decide) (by decide)
  exact h.2.2 (by decide)

/-- C8 counterexample: exempt URLs are reported in raw, unstripped
form: the extracted raw URL https://example.com. is reported with its
trailing period (unequal to its stripped form), and the template URL
https://a.com/v1/[id] is reported with its trailing bracket. -/
theorem normalization_counterexample :
    (run ["go https://example.com. https://a.com/v1/[id] now"] downNet).results.exampleB.map
      CheckResult.url = ["https://example.com."] ∧
    (run ["go https://example.com. https://a.com/v1/[id] now"] downNet).results.template.map
      CheckResult.url = ["https://a.com/v1/[id]"] ∧
    "https://example.com." ≠ rstrip ("https://example.com.") := by
  decide

/-- C8 amended: only probeable (non-exempt) URLs are normalized, by
stripping the longest trailing run of characters among the single
quote, double quote, period, comma, semicolon and colon (brackets are
not in the strip set; bracketed URLs are template-exempt anyway);
exempt URLs are reported raw.  The strip removes exactly a trailing run
of strip characters: the stripped URL is a prefix of the raw one, the
removed suffix consists of strip characters only, and the stripped URL
does not end in a strip character. -/
theorem normalization_amended (net : Net) (url : String) (t : Nat) :
    (isTemplate url = false → isExample url = false →
      (check_url net url t).1.url = rstrip url) ∧
    ((isTemplate url = true ∨ isExample url = true) →
      (check_url net url t).1.url = url) ∧
    (∃ s, url.toList = (rstrip url).toList ++ s ∧
      ∀ c ∈ s, stripChars.contains c = true) ∧
    (∀ h : (rstrip url).toList ≠ [],
      stripChars.contains ((rstrip url).toList.getLast h) = false) := by
  have hrd : (rstrip url).toList =
      List.rdropWhile (fun c => stripChars.contains c) url.toList := rfl
  refine ⟨?_, ?_, ?_, ?_⟩
  · intro h1 h2
    rcases hn : net (rstrip url) t <;> simp [check_url, h1, h2, hn]
    split <;> rfl
  · intro h
    rcases h with h | h
    · simp [check_url, h]
    · cases h1 : isTemplate url <;> simp [check_url, h1, h]
  · refine ⟨(url.toList.reverse.takeWhile (fun c => stripChars.contains c)).reverse, ?_, ?_⟩
    · conv_lhs => rw [← List.reverse_reverse url.toList,
        ← List.takeWhile_append_dropWhile
          (p := fun c => stripChars.contains c) (l := url.toList.reverse)]
      rw [List.reverse_append]
      rfl
    · intro c hc
      exact List.mem_takeWhile_imp (List.mem_reverse.mp hc)
  · intro h
    have := List.rdropWhile_last_not (fun c => stripChars.contains c) url.toList
      (by rw [← hrd]; exact h)
    simp only [Bool.not_eq_true] at this
    convert this using 2

/-- Witness for the amended C8: a probeable URL with trailing strip
characters is reported stripped; an example-domain URL is reported
raw. -/
theorem normalization_amended_witness :
    (check_url downNet ("https://a.com/x.,") 10).1.url = rstrip ("https://a.com/x.,") ∧
    (check_url downNet ("https://example.com/y") 10).1.url = "https://example.com/y" :=
  ⟨(normalization_amended downNet ("https://a.com/x.,") 10).1 (by decide) (by decide),
   (normalization_amended downNet ("https://example.com/y") 10).2.1 (Or.inr (by decide))⟩

/-- C9: the engine is deterministic: identical corpus contents and an
extensionally identical network oracle give identical reports (both
summary counts and per-bucket entry lists), and the working set is
processed in sorted (lexicographic) order over the deduplicated
extracted URLs. -/
theorem run_deterministic (files₁ files₂ : List String) (net₁ net₂ : Net)
    (hf : files₁ = files₂) (hn : ∀ u t, net₁ u t = net₂ u t) :
    run files₁ net₁ = run files₂ net₂ ∧
    List.Sorted strLeR (sortedUrls files₁) ∧
    (sortedUrls files₁).Perm ((files₁.flatMap extract_urls_from_file).dedup) := by
  have hnet : net₁ = net₂ := funext fun u => funext fun t => hn u t
  subst hf; subst hnet
  exact ⟨rfl, List.sorted_insertionSort _ _, List.perm_insertionSort _ _⟩

/-- Witness for C9 at a concrete two-URL corpus and oracle. -/
theorem run_deterministic_witness :
    run ["a https://b.co https://a.co"] downNet = run ["a https://b.co https://a.co"] downNet ∧
    List.Sorted strLeR (sortedUrls ["a https://b.co https://a.co"]) ∧
    (sortedUrls ["a https://b.co https://a.co"]).Perm
      ((["a https://b.co https://a.co"].flatMap extract_urls_from_file).dedup) :=
  run_deterministic _ _ downNet downNet rfl (fun _ _ => rfl)

end VerifyLinks
